import Mathlib

/-!
Shallow embedding of `src/AgentShell.py`.

The script drives an interactive child process through two named pipes
(`input_pipe`, `output_pipe`) in the working directory and a persisted
session record (`.agentshell_session.json`).  The embedding models:

* the observable filesystem state of the working directory (`World`):
  the two pipe paths and the session file;
* the outcomes of the OS and library calls the script merely observes
  (psutil liveness queries, `subprocess.Popen` success, `os.unlink`
  errors, `OSError` while writing the input pipe), collected as inputs
  in `Oracles`;
* the output-reader polling loop (`get_output`), over an explicit
  schedule of `os.read` results and an integer clock in milliseconds;
* the command dispatcher `main`.

Printing to stdout is not modelled except where a claim needs it (the
invalid-PID warning, recorded as a flag in `MainResult`).  Times are
integers in milliseconds.
-/

namespace AgentShell

/-- State of one filesystem path.  For the two pipes, `fifo` carries the
lines written by the controller that are still in flight to the child;
`regular` is an ordinary file with its content (Python `open(path, "w")`
creates a regular file when the path is absent and truncates an existing
regular file). -/
inductive PathState
  | absent
  | fifo (pending : List String)
  | regular (content : List String)
  deriving DecidableEq

/-- Boolean result of `os.path.exists` on a path in this state. -/
def PathState.present : PathState → Bool
  | .absent => false
  | _ => true

/-- Content of `.agentshell_session.json` as seen by `json.load`: either
unparsable (`malformed`, so `json.load` raises and the callers swallow the
error with a bare `except: pass`), or a parsed record whose `pid` and
`command` keys may be absent or null (`none`). -/
inductive FileContent
  | malformed
  | record (pid : Option Int) (command : Option String) (startedAt : Int)
  deriving DecidableEq

/-- Observable filesystem state of the working directory: the two pipe
paths and the session record file. -/
structure World where
  input : PathState
  output : PathState
  session : Option FileContent
  deriving DecidableEq

/-- Outcomes of the OS and library calls made by the script, supplied as
inputs to the model.

* `alive p`: psutil found process `p`, `is_running()` holds and
  `status()` is not `zombie`, and no caught exception was raised.
* `procCmdline p`: the joined `cmdline()` of process `p`.
* `spawnShell`: result of `subprocess.Popen(full_cmd, shell=True,
  executable="/bin/zsh")` — `some pid` if the shell process spawned,
  `none` if `Popen` raised.  Because `shell=True` executes
  `/bin/zsh -c full_cmd`, the spawned executable is the shell itself, so
  success does not depend on whether the executable named inside the
  command string exists; that executable is only resolved later, inside
  the already-running shell.
* `sendOsError`: an `OSError` was raised while opening or writing
  `input_pipe` (e.g. permission denied); caught by `send_input`.
* `terminateOk`: `psutil.Process(pid)` succeeded and `terminate()` did
  not raise.
* `killOk`: `os.kill(pid, SIGKILL)` did not raise.
* `unlink*Ok`: the corresponding `os.unlink` did not raise. -/
structure Oracles where
  alive : Int → Bool
  procCmdline : Int → String
  spawnShell : Option Int
  sendOsError : Bool
  terminateOk : Bool
  killOk : Bool
  unlinkSessionOk : Bool
  unlinkInputOk : Bool
  unlinkOutputOk : Bool

/-- Shared PID-resolution logic of `check_status` and `end_interaction`:
`if pid is None and os.path.exists(".agentshell_session.json"): try:
pid = json.load(f).get("pid") except: pass`.  An explicit argument wins;
otherwise the recorded pid is used when the file exists and parses;
otherwise the pid stays `None`. -/
def resolve_pid (w : World) (pid? : Option Int) : Option Int :=
  match pid? with
  | some p => some p
  | none =>
    match w.session with
    | some (.record p _ _) => p
    | _ => none

/-- Embedding of `setup_interaction`: `os.mkfifo` each pipe when
`os.path.exists` is false, otherwise leave the path untouched. -/
def setup_interaction (w : World) : World :=
  let input' := match w.input with
    | .absent => PathState.fifo []
    | s => s
  let output' := match w.output with
    | .absent => PathState.fifo []
    | s => s
  { w with input := input', output := output' }

/-- How the `start` code path ends.

* `exitNoCommand`: `command is None`, so the script prints an error and
  calls `sys.exit(1)` before doing anything else.
* `popenRaised`: `subprocess.Popen` raised; nothing catches it, so the
  interpreter aborts with a traceback (nonzero exit) before the session
  file write is reached.
* `started pid`: the shell spawned with this pid. -/
inductive StartOutcome
  | exitNoCommand
  | popenRaised
  | started (pid : Int)
  deriving DecidableEq

/-- Embedding of `start_interactive_command`.  Checks only `command is
None` (the empty string passes the check), spawns
`command < input_pipe > output_pipe` through `/bin/zsh`, and only then
writes `.agentshell_session.json` with the pid of the spawned shell, the
command string, and the current time — overwriting any prior record. -/
def start_interactive_command (w : World) (command : Option String)
    (o : Oracles) (now : Int) : World × StartOutcome :=
  match command with
  | none => (w, .exitNoCommand)
  | some cmd =>
    match o.spawnShell with
    | none => (w, .popenRaised)
    | some pid =>
      ({ w with session := some (.record (some pid) (some cmd) now) }, .started pid)

/-- Result of `send_input`: the `try` body completed and printed
`Sent: ...`, or an exception was caught and reported. -/
inductive SendOutcome
  | sent
  | errorCaught
  deriving DecidableEq

/-- Embedding of `send_input`: `open("input_pipe", "w")` then
`f.write(content + "\n")`, with a catch-all `except` that prints the
error.  Python mode `"w"` never fails on a missing path: it creates a
regular file there; on an existing regular file it truncates; on a FIFO
it appends the line to the stream read by the child (the open may block
until a reader attaches, which the model treats as eventual success). -/
def send_input (w : World) (content : String) (o : Oracles) :
    World × SendOutcome :=
  if o.sendOsError then (w, .errorCaught)
  else
    match w.input with
    | .absent => ({ w with input := .regular [content ++ "\n"] }, .sent)
    | .fifo pending => ({ w with input := .fifo (pending ++ [content ++ "\n"]) }, .sent)
    | .regular _ => ({ w with input := .regular [content ++ "\n"] }, .sent)

/-- Environment of one `get_output` call.

* `reads k` is the result of the `k`-th `os.read(fd, 4096)` on the
  nonblocking descriptor: `some chunk` when the read returned these
  bytes (`some []` is the empty read returned once no writer has the
  pipe open), `none` when it raised `BlockingIOError` (a writer is
  attached but no data is buffered).
* `cost k` is the extra time in milliseconds consumed by the `k`-th
  loop iteration besides its `time.sleep` calls; every iteration takes
  strictly positive time, modelled as `1 + cost k`. -/
structure Env where
  reads : Nat → Option (List Nat)
  cost : Nat → Nat

/-- Embedding of the polling loop of `get_output` (`while time.time() -
start_time < timeout`).  `fuel` bounds the number of iterations; since
every iteration advances `elapsed` by at least one millisecond, `fuel :=
timeout` makes the `0` case unreachable before the time check fails (see
`get_output_go_succ_of_le`), so the loop exits exactly when `elapsed`
reaches `timeout`.  Branches, in source order: a nonempty chunk is
appended to the accumulator; an empty chunk sleeps 100 ms and then
returns if the accumulator is nonempty; `BlockingIOError` returns at
once if the accumulator is nonempty and otherwise sleeps 100 ms. -/
def get_output_go (env : Env) (timeout : Nat) :
    Nat → Nat → Nat → List Nat → List Nat × Nat
  | 0, _k, elapsed, out => (out, elapsed)
  | fuel+1, k, elapsed, out =>
    if elapsed < timeout then
      match env.reads k with
      | some chunk =>
        if chunk = [] then
          if out = [] then
            get_output_go env timeout fuel (k+1) (elapsed + (1 + env.cost k) + 100) out
          else (out, elapsed + (1 + env.cost k) + 100)
        else
          get_output_go env timeout fuel (k+1) (elapsed + (1 + env.cost k)) (out ++ chunk)
      | none =>
        if out = [] then
          get_output_go env timeout fuel (k+1) (elapsed + (1 + env.cost k) + 100) out
        else (out, elapsed + (1 + env.cost k))
    else (out, elapsed)

/-- Embedding of `get_output`: the loop with the hardcoded
`timeout = 3` seconds (3000 ms), started with an empty accumulator.
Returns the accumulated bytes and the elapsed time at return. -/
def get_output (env : Env) : List Nat × Nat :=
  get_output_go env 3000 3000 0 0 []

/-- The dictionary built by `check_status`: the four keys it always
sets, plus the keys `command`, `pid` and `process_cmdline` that are only
set on some paths (`none` when unset). -/
structure StatusInfo where
  input_channel : Bool
  output_channel : Bool
  process : Bool
  overall_status : String
  command : Option String
  pid : Option Int
  process_cmdline : Option String
  deriving DecidableEq

/-- Filesystem paths the script touches. -/
inductive PathTarget
  | inputPipe
  | outputPipe
  | sessionFile
  deriving DecidableEq

/-- Read-only primitive: `os.path.exists`, threading the world it does
not change. -/
def os_path_exists (t : PathTarget) (w : World) : Bool × World :=
  (match t with
   | .inputPipe => w.input.present
   | .outputPipe => w.output.present
   | .sessionFile => w.session.isSome, w)

/-- Read-only primitive: `open(".agentshell_session.json") ; json.load`,
returning the `pid` key and the `command` key (with default
`"unknown"`), or nothing when the parse raises (swallowed by the
caller's `except: pass`). -/
def read_record (w : World) : (Option Int × Option String) × World :=
  (match w.session with
   | some (.record p c _) => (p, some (c.getD "unknown"))
   | _ => (none, none), w)

/-- An exception that escapes the script uncaught: `psutil.Process(p)`
raises `ValueError` for a negative pid, and the `except` tuple of
`check_status` (`NoSuchProcess`, `AccessDenied`, `ZombieProcess`) does
not catch it, so the interpreter aborts with a traceback. -/
inductive PyExc
  | valueError (p : Int)
  deriving DecidableEq

/-- Read-only primitive: `psutil.Process(p)` followed by the liveness
queries (`is_running()` and `status() != "zombie"`).  Three outcomes:
for a negative pid, `psutil.Process` raises `ValueError`, which the
caller's `except` tuple does not catch (`Except.error`); otherwise the
queries either complete or raise one of the caught exception types, and
the oracle reports whether the process was found running and not a
zombie (`Except.ok`).  A read either way: the world is unchanged. -/
def psutil_alive (o : Oracles) (p : Int) (w : World) : Except PyExc Bool × World :=
  if p < 0 then (.error (.valueError p), w) else (.ok (o.alive p), w)

/-- Read-only primitive: `" ".join(Process(p).cmdline())`. -/
def psutil_cmdline (o : Oracles) (p : Int) (w : World) : String × World :=
  (o.procCmdline p, w)

/-- Embedding of `check_status`, threading the world through each
operation the source performs (all of them reads: `os.path.exists`,
opening the record file for reading, psutil queries, prints).  Source
order: check both pipes; when no pid was passed and the record file
exists, load pid and command from it; when the resolved pid is truthy
(`if pid:` — so pid `0` is skipped), query psutil and on success set
`process`, `pid` and `process_cmdline`; finally `overall_status` is
`"healthy"` iff both pipes exist and (`pid is None` or `process`).
When the resolved pid is negative, `psutil.Process` raises
`ValueError`, which the `except` tuple at line 247 does not catch: the
exception escapes `check_status` before any verdict is computed or
printed (`Except.error`). -/
def check_status_run (pid? : Option Int) (o : Oracles) (w : World) :
    Except PyExc StatusInfo × World :=
  let (inCh, w1) := os_path_exists .inputPipe w
  let (outCh, w2) := os_path_exists .outputPipe w1
  let (sessEx, w3) := os_path_exists .sessionFile w2
  let (pc, w4) :=
    if pid?.isNone && sessEx then read_record w3
    else ((pid?, none), w3)
  let pid1 := pc.1
  let step : Except PyExc (Bool × Option Int × Option String) × World :=
    match pid1 with
    | some p =>
      if p = 0 then (.ok (false, none, none), w4)
      else
        match psutil_alive o p w4 with
        | (.error e, w') => (.error e, w')
        | (.ok al, w') =>
          if al then
            let (cl, w'') := psutil_cmdline o p w'
            (.ok (true, some p, some cl), w'')
          else (.ok (false, none, none), w')
    | none => (.ok (false, none, none), w4)
  match step.1 with
  | .error e => (.error e, step.2)
  | .ok tri =>
    let overall := if inCh && outCh && (pid1.isNone || tri.1) then "healthy" else "unhealthy"
    (.ok { input_channel := inCh, output_channel := outCh, process := tri.1,
           overall_status := overall, command := pc.2, pid := tri.2.1,
           process_cmdline := tri.2.2 }, step.2)

/-- The result of `check_status`: the status dictionary, or the uncaught
`ValueError` that escapes it for a negative resolved pid. -/
def check_status (w : World) (pid? : Option Int) (o : Oracles) :
    Except PyExc StatusInfo :=
  (check_status_run pid? o w).1

/-- Value of the `command` key set by `check_status`: loaded from the
record only when no pid argument was given and the file exists and
parses (default `"unknown"` when the key is absent). -/
def status_command (w : World) (pid? : Option Int) : Option String :=
  if pid?.isNone && w.session.isSome then
    match w.session with
    | some (.record _ c _) => some (c.getD "unknown")
    | _ => none
  else none

/-- Externally visible actions attempted by `end_interaction`:
signalling the process and unlinking each file. -/
inductive Act
  | terminateProc (p : Int)
  | killProc (p : Int)
  | unlinkSessionFile
  | unlinkInputPipe
  | unlinkOutputPipe
  deriving DecidableEq

/-- Termination attempts of `end_interaction` for the resolved pid:
nothing when the pid is not truthy (`if pid:` — so `None` and `0` are
skipped); otherwise `psutil.Process(pid).terminate()` is attempted, and
only when that raised, `os.kill(pid, SIGKILL)`; a failure of both is
merely printed. -/
def end_proc_acts (pid1 : Option Int) (o : Oracles) : List Act :=
  match pid1 with
  | some p =>
    if p = 0 then []
    else if o.terminateOk then [.terminateProc p]
    else [.terminateProc p, .killProc p]
  | none => []

/-- Record-file cleanup of `end_interaction`: its own `try` block with a
swallowing `except: pass`, unlinking `.agentshell_session.json` only if
it exists; on an unlink error the file stays.  Returns the resulting
file state and the attempted actions. -/
def end_sess_step (w : World) (o : Oracles) : Option FileContent × List Act :=
  if w.session.isSome then
    if o.unlinkSessionOk then (none, [.unlinkSessionFile])
    else (w.session, [.unlinkSessionFile])
  else (w.session, [])

/-- Channel cleanup of `end_interaction`: one shared `try` block that
unlinks `input_pipe` if it exists and then `output_pipe` if it exists —
an exception while unlinking `input_pipe` jumps to the `except` handler
and the `output_pipe` unlink is never attempted.  Returns the resulting
states of the two pipes and the attempted actions. -/
def end_pipe_step (w : World) (o : Oracles) : PathState × PathState × List Act :=
  if w.input.present then
    if o.unlinkInputOk then
      if w.output.present then
        if o.unlinkOutputOk then (.absent, .absent, [.unlinkInputPipe, .unlinkOutputPipe])
        else (.absent, w.output, [.unlinkInputPipe, .unlinkOutputPipe])
      else (.absent, w.output, [.unlinkInputPipe])
    else (w.input, w.output, [.unlinkInputPipe])
  else
    if w.output.present then
      if o.unlinkOutputOk then (w.input, .absent, [.unlinkOutputPipe])
      else (w.input, w.output, [.unlinkOutputPipe])
    else (w.input, w.output, [])

/-- Embedding of `end_interaction`.  Resolve the pid (explicit argument,
else session record, else none); attempt termination
(`end_proc_acts`); clean up the record file (`end_sess_step`); clean up
the two channels (`end_pipe_step`).  Every exception is caught, so the
function never raises.  Returns the new world and the list of attempted
actions. -/
def end_interaction (w : World) (pid? : Option Int) (o : Oracles) :
    World × List Act :=
  ({ input := (end_pipe_step w o).1, output := (end_pipe_step w o).2.1,
     session := (end_sess_step w o).1 },
   end_proc_acts (resolve_pid w pid?) o ++ (end_sess_step w o).2 ++ (end_pipe_step w o).2.2)

/-- How the interpreter process ends: a normal exit with this code
(`sys.exit` or falling off the end of `main`), or an uncaught exception
(traceback, nonzero exit). -/
inductive ExitKind
  | normal (code : Nat)
  | crashed
  deriving DecidableEq

/-- Observable outcome of one `main` invocation: how the process exited,
the final filesystem state, whether the invalid-PID warning was printed,
the status dictionary when `status` ran, and the actions attempted when
`end` ran. -/
structure MainResult where
  term : ExitKind
  world : World
  warnedBadPid : Bool
  statusReport : Option StatusInfo
  acts : List Act
  deriving DecidableEq

/-- The `status` action of `main`: run `check_status` and return
normally with its report (the branch never calls `sys.exit`, so the exit
code is 0), unless the uncaught `ValueError` escapes and aborts the
interpreter. -/
def main_status (pid? : Option Int) (warned : Bool) (o : Oracles) (w : World) :
    MainResult :=
  let r := check_status_run pid? o w
  match r.1 with
  | .ok info => ⟨.normal 0, r.2, warned, some info, []⟩
  | .error _ => ⟨.crashed, r.2, warned, none, []⟩

/-- Embedding of `main`.  `args` is `sys.argv` without the script name,
so `sys.argv` shorter than 2 is `args = []`.  `pyInt` abstracts the
Python `int` builtin on strings: `some n` on success, `none` when it
raises `ValueError`.  For `status` and `end`, a present but unparsable
pid argument prints a warning and proceeds with `pid = None`; no path in
these two branches calls `sys.exit`, so they end with exit code 0.  The
`receive` branch drains the output pipe's OS buffer, which `World` does
not track (see `Env`), so its world is unchanged. -/
def main (pyInt : String → Option Int) (o : Oracles) (now : Int)
    (args : List String) (w : World) : MainResult :=
  match args with
  | [] => ⟨.normal 1, w, false, none, []⟩
  | action :: rest =>
    if action = "setup" then ⟨.normal 0, setup_interaction w, false, none, []⟩
    else if action = "start" then
      let r := start_interactive_command w rest.head? o now
      match r.2 with
      | .exitNoCommand => ⟨.normal 1, r.1, false, none, []⟩
      | .popenRaised => ⟨.crashed, r.1, false, none, []⟩
      | .started _ => ⟨.normal 0, r.1, false, none, []⟩
    else if action = "send" then
      match rest.head? with
      | none => ⟨.normal 1, w, false, none, []⟩
      | some content => ⟨.normal 0, (send_input w content o).1, false, none, []⟩
    else if action = "receive" then ⟨.normal 0, w, false, none, []⟩
    else if action = "status" then
      match rest.head? with
      | none => main_status none false o w
      | some s =>
        match pyInt s with
        | some p => main_status (some p) false o w
        | none => main_status none true o w
    else if action = "end" then
      match rest.head? with
      | none =>
        let r := end_interaction w none o
        ⟨.normal 0, r.1, false, none, r.2⟩
      | some s =>
        match pyInt s with
        | some p =>
          let r := end_interaction w (some p) o
          ⟨.normal 0, r.1, false, none, r.2⟩
        | none =>
          let r := end_interaction w none o
          ⟨.normal 0, r.1, true, none, r.2⟩
    else ⟨.normal 1, w, false, none, []⟩

/-! Concrete instances used by witnesses and counterexamples. -/

/-- Both pipes present as FIFOs, no session record. -/
def wPipes : World := { input := .fifo [], output := .fifo [], session := none }

/-- Both pipes present, session record for pid 42 running `"cat"`. -/
def wFull : World :=
  { input := .fifo [], output := .fifo [],
    session := some (.record (some 42) (some "cat") 0) }

/-- Empty working directory. -/
def wEmpty : World := { input := .absent, output := .absent, session := none }

/-- Baseline oracles: every OS call succeeds, the shell spawns as pid
42, every process is reported dead. -/
def oBase : Oracles :=
  { alive := fun _ => false, procCmdline := fun _ => "",
    spawnShell := some 42, sendOsError := false,
    terminateOk := true, killOk := true,
    unlinkSessionOk := true, unlinkInputOk := true, unlinkOutputOk := true }

/-- Baseline oracles, but every process is reported alive. -/
def oAllAlive : Oracles := { oBase with alive := fun _ => true }

/-- Baseline oracles, but unlinking `input_pipe` raises. -/
def oInputUnlinkFails : Oracles := { oBase with unlinkInputOk := false }

/-- Read schedule of a channel with no writer: every read returns an
empty chunk. -/
def envNoWriter : Env := { reads := fun _ => some [], cost := fun _ => 0 }

/-- Read schedule seen immediately after a burst `"A"` (byte 65): the
first read drains the burst, every later read would block because the
child is still alive but quiet. -/
def envBurstA : Env :=
  { reads := fun k => if k = 0 then some [65] else none, cost := fun _ => 0 }

/-- Read schedule of a later call, after the child wrote `"B"` (byte
66). -/
def envBurstB : Env :=
  { reads := fun k => if k = 0 then some [66] else none, cost := fun _ => 0 }

/-- Read schedule with an early burst and data still arriving at read
index 3 (used to instantiate append and retry steps). -/
def envMixed : Env :=
  { reads := fun k => if k = 3 then some [66] else none, cost := fun _ => 0 }

/-- Baseline oracles, but `Popen` raises (the shell itself cannot be
spawned). -/
def oNoShell : Oracles := { oBase with spawnShell := none }

/-- A Python `int` parser that rejects every string. -/
def pyIntNone : String → Option Int := fun _ => none

/-- The executable-spawnability predicate in which no command names a
spawnable executable. -/
def noExecutable : String → Bool := fun _ => false

/-- Both pipes present, session record holding the negative pid -7
(the record file is external state, so any integer can appear there). -/
def wNegPid : World :=
  { input := .fifo [], output := .fifo [],
    session := some (.record (some (-7)) (some "cat") 0) }

/-- A Python `int` parser that parses every string as -1 (the behaviour
of `int` on the argument `"-1"`). -/
def pyIntNegOne : String → Option Int := fun _ => some (-1)

/-! Formalisations of claims that turn out to be false on the source,
stated the way the claims are written. -/

/-- Claim C3 as stated: `end_interaction` attempts to delete each
present target (record and the two channels) independently, so a failure
on one never prevents the deletion attempt on the others. -/
def claimC3 : Prop :=
  ∀ (w : World) (pid? : Option Int) (o : Oracles),
    (w.session.isSome = true → Act.unlinkSessionFile ∈ (end_interaction w pid? o).2) ∧
    (w.input.present = true → Act.unlinkInputPipe ∈ (end_interaction w pid? o).2) ∧
    (w.output.present = true → Act.unlinkOutputPipe ∈ (end_interaction w pid? o).2)

/-- Claim C4 as stated: for every combination of channel presence,
recorded or supplied pid, and process liveness, `check_status` reports
`"healthy"` iff both channels are present and (no pid was supplied or
recorded, or the identified process is reported running and not a
zombie) — in particular it always reports. -/
def claimC4 : Prop :=
  ∀ (w : World) (pid? : Option Int) (o : Oracles),
    (∃ info, check_status w pid? o = Except.ok info
        ∧ info.overall_status = "healthy") ↔
      (w.input.present = true ∧ w.output.present = true ∧
        (resolve_pid w pid? = none ∨
          ∃ p, resolve_pid w pid? = some p ∧ o.alive p = true))

/-- Claim C5's failure clause as stated: when the input channel does not
exist, `send_input` fails (does not report a successful send). -/
def claimC5 : Prop :=
  ∀ (w : World) (content : String) (o : Oracles),
    o.sendOsError = false → w.input = PathState.absent →
      (send_input w content o).2 ≠ SendOutcome.sent

/-- Claim C6 as stated, over an arbitrary predicate `execSpawnable`
telling which command strings name a spawnable executable: whenever the
executable cannot be spawned, `start` does not start and no session
record is written. -/
def claimC6 (execSpawnable : String → Bool) : Prop :=
  ∀ (w : World) (cmd : String) (o : Oracles) (now : Int),
    execSpawnable cmd = false →
      (∀ p, (start_interactive_command w (some cmd) o now).2 ≠ .started p) ∧
      (start_interactive_command w (some cmd) o now).1.session = w.session

/-- Claim C7 as stated: an empty or missing command is rejected with an
error exit and no side effects. -/
def claimC7 : Prop :=
  ∀ (w : World) (cmd? : Option String) (o : Oracles) (now : Int),
    (cmd? = none ∨ cmd? = some "") →
      start_interactive_command w cmd? o now = (w, .exitNoCommand)

/-! Supporting lemmas. -/

/-- Fuel adequacy for `get_output_go`: every iteration advances the
clock by at least one millisecond, so once the fuel covers the time left
before the timeout, adding more fuel does not change the result.  Hence
`get_output`, which starts with `fuel := timeout`, behaves as the
unbounded source loop. -/
theorem get_output_go_succ_of_le (env : Env) (timeout : Nat) :
    ∀ (fuel k elapsed : Nat) (out : List Nat), timeout ≤ elapsed + fuel →
      get_output_go env timeout (fuel + 1) k elapsed out
        = get_output_go env timeout fuel k elapsed out := by
  intro fuel
  induction fuel with
  | zero =>
    intro k elapsed out h
    simp only [Nat.add_zero] at h
    simp [get_output_go, Nat.not_lt.mpr h]
  | succ n ih =>
    intro k elapsed out h
    by_cases hlt : elapsed < timeout
    · simp only [get_output_go, hlt, if_true]
      cases hr : env.reads k with
      | some chunk =>
        by_cases hc : chunk = []
        · by_cases ho : out = []
          · simp only [hc, ho, if_true]
            exact ih _ _ _ (by omega)
          · simp [hc, ho]
        · simp only [hc, if_neg hc]
          exact ih _ _ _ (by omega)
      | none =>
        by_cases ho : out = []
        · simp only [ho, if_true]
          exact ih _ _ _ (by omega)
        · simp [ho]
    · simp [get_output_go, hlt]

/-- On a schedule where every read returns an empty chunk (no writer),
the accumulator stays empty, the loop only exits on the time check, and
the elapsed time at exit overshoots the timeout by less than one poll
interval plus the per-iteration cost bound. -/
theorem get_output_go_no_writer (env : Env) (timeout C : Nat)
    (hr : ∀ k, env.reads k = some []) (hc : ∀ k, env.cost k ≤ C) :
    ∀ (fuel k elapsed : Nat), timeout ≤ elapsed + fuel →
      elapsed < timeout + (C + 101) →
      (get_output_go env timeout fuel k elapsed []).1 = []
      ∧ timeout ≤ (get_output_go env timeout fuel k elapsed []).2
      ∧ (get_output_go env timeout fuel k elapsed []).2 < timeout + (C + 101) := by
  intro fuel
  induction fuel with
  | zero =>
    intro k elapsed hf hb
    simp only [Nat.add_zero] at hf
    exact ⟨rfl, hf, hb⟩
  | succ n ih =>
    intro k elapsed hf hb
    by_cases hlt : elapsed < timeout
    · have hck := hc k
      simp only [get_output_go, hlt, if_true, hr k, if_pos rfl]
      exact ih (k + 1) (elapsed + (1 + env.cost k) + 100) (by omega) (by omega)
    · simp only [get_output_go, hlt, if_false]
      exact ⟨by simp, Nat.not_lt.mp hlt, hb⟩

/-- Reduction of the conditional verdict string. -/
theorem healthy_iff (c : Bool) :
    ((if c then "healthy" else "unhealthy") = "healthy") ↔ c = true := by
  cases c <;> simp

/-- Closed form of `check_status_run`: the world is always returned
unchanged; a negative resolved pid escapes as the uncaught `ValueError`;
otherwise a report is produced whose `process` flag holds iff the
resolved pid is positive and reported alive, and whose verdict is
`"healthy"` iff both channels are present and (the resolved pid is
`None`, or the `process` flag holds). -/
theorem check_status_run_eq (w : World) (pid? : Option Int) (o : Oracles) :
    check_status_run pid? o w
      = ((match resolve_pid w pid? with
          | some p =>
            if p < 0 then Except.error (PyExc.valueError p)
            else
              Except.ok
                { input_channel := w.input.present,
                  output_channel := w.output.present,
                  process := decide (0 < p) && o.alive p,
                  overall_status :=
                    if w.input.present && w.output.present
                        && (decide (0 < p) && o.alive p)
                    then "healthy" else "unhealthy",
                  command := status_command w pid?,
                  pid := if decide (0 < p) && o.alive p then some p else none,
                  process_cmdline :=
                    if decide (0 < p) && o.alive p
                    then some (o.procCmdline p) else none }
          | none =>
            Except.ok
              { input_channel := w.input.present,
                output_channel := w.output.present,
                process := false,
                overall_status :=
                  if w.input.present && w.output.present
                  then "healthy" else "unhealthy",
                command := status_command w pid?,
                pid := none, process_cmdline := none }), w) := by
  cases pid? with
  | some q =>
    rcases lt_trichotomy q 0 with hq | hq | hq
    · have h0 : ¬ q = 0 := by omega
      simp [check_status_run, os_path_exists, read_record, psutil_alive,
        psutil_cmdline, resolve_pid, status_command, h0, hq]
    · subst hq
      simp [check_status_run, os_path_exists, read_record, psutil_alive,
        psutil_cmdline, resolve_pid, status_command]
    · have h0 : ¬ q = 0 := by omega
      have hneg : ¬ q < 0 := by omega
      cases ha : o.alive q <;>
        simp [check_status_run, os_path_exists, read_record, psutil_alive,
          psutil_cmdline, resolve_pid, status_command, h0, hneg, hq, ha]
  | none =>
    rcases hs : w.session with _ | fc
    · simp [check_status_run, os_path_exists, read_record, psutil_alive,
        psutil_cmdline, resolve_pid, status_command, hs]
    · cases fc with
      | malformed =>
        simp [check_status_run, os_path_exists, read_record, psutil_alive,
          psutil_cmdline, resolve_pid, status_command, hs]
      | record p c t =>
        cases p with
        | none =>
          simp [check_status_run, os_path_exists, read_record, psutil_alive,
            psutil_cmdline, resolve_pid, status_command, hs]
        | some q =>
          rcases lt_trichotomy q 0 with hq | hq | hq
          · have h0 : ¬ q = 0 := by omega
            simp [check_status_run, os_path_exists, read_record, psutil_alive,
              psutil_cmdline, resolve_pid, status_command, hs, h0, hq]
          · subst hq
            simp [check_status_run, os_path_exists, read_record, psutil_alive,
              psutil_cmdline, resolve_pid, status_command, hs]
          · have h0 : ¬ q = 0 := by omega
            have hneg : ¬ q < 0 := by omega
            cases ha : o.alive q <;>
              simp [check_status_run, os_path_exists, read_record, psutil_alive,
                psutil_cmdline, resolve_pid, status_command, hs, h0, hneg, hq, ha]

/-- Unlink actions never appear among the termination attempts. -/
theorem end_proc_acts_no_unlink (pid1 : Option Int) (o : Oracles) :
    Act.unlinkSessionFile ∉ end_proc_acts pid1 o
    ∧ Act.unlinkInputPipe ∉ end_proc_acts pid1 o
    ∧ Act.unlinkOutputPipe ∉ end_proc_acts pid1 o := by
  rcases pid1 with _ | p
  · simp [end_proc_acts]
  · by_cases hp : p = 0 <;> by_cases ht : o.terminateOk = true <;>
      simp [end_proc_acts, hp, ht]

/-- Membership in the record-cleanup actions: only the record unlink,
attempted exactly when the file exists. -/
theorem end_sess_step_mem (w : World) (o : Oracles) :
    (Act.unlinkSessionFile ∈ (end_sess_step w o).2 ↔ w.session.isSome = true)
    ∧ Act.unlinkInputPipe ∉ (end_sess_step w o).2
    ∧ Act.unlinkOutputPipe ∉ (end_sess_step w o).2 := by
  cases hs : w.session <;> by_cases ho : o.unlinkSessionOk = true <;>
    simp [end_sess_step, hs, ho]

/-- Membership in the channel-cleanup actions: the input unlink is
attempted exactly when `input_pipe` exists; the output unlink is
attempted exactly when `output_pipe` exists and the shared `try` block
reached it (input absent, or its unlink succeeded). -/
theorem end_pipe_step_mem (w : World) (o : Oracles) :
    Act.unlinkSessionFile ∉ (end_pipe_step w o).2.2
    ∧ (Act.unlinkInputPipe ∈ (end_pipe_step w o).2.2 ↔ w.input.present = true)
    ∧ (Act.unlinkOutputPipe ∈ (end_pipe_step w o).2.2
        ↔ (w.output.present = true
            ∧ (w.input.present = false ∨ o.unlinkInputOk = true))) := by
  cases hi : w.input.present <;> cases ho : w.output.present <;>
    by_cases h1 : o.unlinkInputOk = true <;> by_cases h2 : o.unlinkOutputOk = true <;>
      simp [end_pipe_step, hi, ho, h1, h2]

/-- When both channel unlinks succeed, both pipes end up absent. -/
theorem end_pipe_step_all_ok (w : World) (o : Oracles)
    (h1 : o.unlinkInputOk = true) (h2 : o.unlinkOutputOk = true) :
    (end_pipe_step w o).1 = .absent ∧ (end_pipe_step w o).2.1 = .absent := by
  rcases w with ⟨i, ou, s⟩
  cases i <;> cases ou <;> simp [end_pipe_step, PathState.present, h1, h2]

/-! Claim theorems. -/

/-- C8: `setup_interaction` is idempotent: a second call changes
nothing; after one call both channels are present; creating an
already-present channel is a no-op; and the session record is never
touched. -/
theorem C8_setup_idempotent :
    (∀ w : World, setup_interaction (setup_interaction w) = setup_interaction w)
    ∧ (∀ w : World, (setup_interaction w).input.present = true
        ∧ (setup_interaction w).output.present = true)
    ∧ (∀ w : World, w.input.present = true → (setup_interaction w).input = w.input)
    ∧ (∀ w : World, w.output.present = true → (setup_interaction w).output = w.output)
    ∧ (∀ w : World, (setup_interaction w).session = w.session) := by
  refine ⟨?_, ?_, ?_, ?_, ?_⟩ <;> intro w <;> rcases w with ⟨i, ou, s⟩ <;>
    cases i <;> cases ou <;> simp [setup_interaction, PathState.present]

/-- Witness for C8 at a concrete world with both channels present. -/
theorem C8_setup_idempotent_witness :
    (setup_interaction wPipes).input = wPipes.input
    ∧ (setup_interaction wPipes).output = wPipes.output :=
  ⟨C8_setup_idempotent.2.2.1 wPipes rfl, C8_setup_idempotent.2.2.2.1 wPipes rfl⟩

/-- C9: `check_status` is a pure read: threading the world through every
operation the source performs (existence checks, opening the record file
for reading, psutil queries), the final world is the initial one, for
every prior state and input — including the path on which the uncaught
`ValueError` escapes, since only reads happen before it. -/
theorem C9_check_status_pure_read :
    ∀ (w : World) (pid? : Option Int) (o : Oracles),
      (check_status_run pid? o w).2 = w := by
  intro w pid? o
  rw [check_status_run_eq]

/-- C1: one loop step of the output reader appends an arriving chunk to
the accumulator; the first no-data step with a nonempty accumulator
returns it — immediately on `BlockingIOError`, after one 100 ms sleep on
an empty read — instead of waiting out the remaining timeout; a no-data
step with an empty accumulator sleeps 100 ms and retries; and in the
burst-then-quiet scenario a call right after the burst `"A"` returns
only `"A"` (byte 65) after 2 ms of a 5000 ms timeout, while a later call
returns the subsequently written `"B"` (byte 66). -/
theorem C1_get_output_burst :
    (∀ (env : Env) (timeout fuel k elapsed : Nat) (out chunk : List Nat),
      elapsed < timeout → env.reads k = some chunk → chunk ≠ [] →
      get_output_go env timeout (fuel + 1) k elapsed out
        = get_output_go env timeout fuel (k + 1) (elapsed + (1 + env.cost k)) (out ++ chunk))
    ∧ (∀ (env : Env) (timeout fuel k elapsed : Nat) (out : List Nat),
      elapsed < timeout → out ≠ [] → env.reads k = none →
      get_output_go env timeout (fuel + 1) k elapsed out
        = (out, elapsed + (1 + env.cost k)))
    ∧ (∀ (env : Env) (timeout fuel k elapsed : Nat) (out : List Nat),
      elapsed < timeout → out ≠ [] → env.reads k = some [] →
      get_output_go env timeout (fuel + 1) k elapsed out
        = (out, elapsed + (1 + env.cost k) + 100))
    ∧ (∀ (env : Env) (timeout fuel k elapsed : Nat),
      elapsed < timeout → (env.reads k = none ∨ env.reads k = some []) →
      get_output_go env timeout (fuel + 1) k elapsed []
        = get_output_go env timeout fuel (k + 1) (elapsed + (1 + env.cost k) + 100) [])
    ∧ get_output_go envBurstA 5000 5000 0 0 [] = ([65], 2)
    ∧ get_output_go envBurstB 5000 5000 0 0 [] = ([66], 2) := by
  refine ⟨?_, ?_, ?_, ?_, rfl, rfl⟩
  · intro env timeout fuel k elapsed out chunk hlt hr hc
    simp [get_output_go, hlt, hr, hc]
  · intro env timeout fuel k elapsed out hlt ho hr
    simp [get_output_go, hlt, hr, ho]
  · intro env timeout fuel k elapsed out hlt ho hr
    simp [get_output_go, hlt, hr, ho]
  · intro env timeout fuel k elapsed hlt hr
    rcases hr with hr | hr <;> simp [get_output_go, hlt, hr]

/-- Witness for C1: the four loop-step laws instantiated on concrete
schedules. -/
theorem C1_get_output_burst_witness :
    get_output_go envBurstA 5000 4999 0 0 []
      = get_output_go envBurstA 5000 4998 1 1 [65]
    ∧ get_output_go envBurstA 5000 4999 1 1 [65] = ([65], 2)
    ∧ get_output_go envNoWriter 5000 4999 0 0 [65] = ([65], 101)
    ∧ get_output_go envMixed 5000 4999 0 0 []
      = get_output_go envMixed 5000 4998 1 101 [] :=
  ⟨C1_get_output_burst.1 envBurstA 5000 4998 0 0 [] [65] (by decide) rfl (by decide),
   C1_get_output_burst.2.1 envBurstA 5000 4998 1 1 [65] (by decide) (by decide) rfl,
   C1_get_output_burst.2.2.1 envNoWriter 5000 4998 0 0 [65] (by decide) (by decide) rfl,
   C1_get_output_burst.2.2.2.1 envMixed 5000 4998 0 0 (by decide) (Or.inl rfl)⟩

/-- C2: the output reader always terminates (it is a total function of
its schedule), and against a channel with no writer — every read returns
an empty chunk — it returns an empty accumulator with the elapsed time
at exit between the timeout and the timeout plus one poll interval (100
ms plus the per-iteration cost bound plus 1 ms); concretely, with the
source's 3000 ms timeout, it returns empty output at 3030 ms. -/
theorem C2_get_output_terminates :
    (∀ (env : Env) (timeout C : Nat),
      (∀ k, env.reads k = some []) → (∀ k, env.cost k ≤ C) →
      (get_output_go env timeout timeout 0 0 []).1 = []
      ∧ timeout ≤ (get_output_go env timeout timeout 0 0 []).2
      ∧ (get_output_go env timeout timeout 0 0 []).2 < timeout + (C + 101))
    ∧ get_output envNoWriter = ([], 3030) := by
  constructor
  · intro env timeout C hr hc
    exact get_output_go_no_writer env timeout C hr hc timeout 0 0 (by omega) (by omega)
  · rfl

/-- Witness for C2: a 1000 ms timeout against the writerless schedule
returns empty output between 1000 and 1101 ms. -/
theorem C2_get_output_terminates_witness :
    (get_output_go envNoWriter 1000 1000 0 0 []).1 = []
    ∧ 1000 ≤ (get_output_go envNoWriter 1000 1000 0 0 []).2
    ∧ (get_output_go envNoWriter 1000 1000 0 0 []).2 < 1000 + (0 + 101) :=
  C2_get_output_terminates.1 envNoWriter 1000 0 (fun _ => rfl) (fun _ => Nat.le_refl 0)

/-- C3 is false as stated: with both pipes present and a failing
`input_pipe` unlink, the `output_pipe` unlink — which would have
succeeded — is never attempted, because both unlinks sit in one shared
`try` block. -/
theorem C3_counterexample : ¬ claimC3 := by
  intro h
  have h3 := (h wFull none oInputUnlinkFails).2.2 rfl
  revert h3
  decide

/-- C3 amended: `end_interaction` never raises (every exception is
caught); the record deletion is attempted iff the record exists,
independently of all other failures, and is a no-op when the record is
absent; the `input_pipe` deletion is attempted iff that pipe exists; the
two channel deletions share one `try` block, so the `output_pipe`
deletion is attempted iff it exists and the block reached it
(`input_pipe` absent or its unlink succeeded); absent targets stay
absent; and whenever all attempted unlinks succeed, the record and both
channels are absent afterwards, for every prior state. -/
theorem C3_end_interaction_cleanup :
    ∀ (w : World) (pid? : Option Int) (o : Oracles),
      (o.unlinkSessionOk = true → o.unlinkInputOk = true → o.unlinkOutputOk = true →
        (end_interaction w pid? o).1.session = none
        ∧ (end_interaction w pid? o).1.input = .absent
        ∧ (end_interaction w pid? o).1.output = .absent)
      ∧ (Act.unlinkSessionFile ∈ (end_interaction w pid? o).2 ↔ w.session.isSome = true)
      ∧ (Act.unlinkInputPipe ∈ (end_interaction w pid? o).2 ↔ w.input.present = true)
      ∧ (Act.unlinkOutputPipe ∈ (end_interaction w pid? o).2
          ↔ (w.output.present = true
              ∧ (w.input.present = false ∨ o.unlinkInputOk = true)))
      ∧ (w.session = none → (end_interaction w pid? o).1.session = none)
      ∧ (w.input = .absent → (end_interaction w pid? o).1.input = .absent)
      ∧ (w.output = .absent → (end_interaction w pid? o).1.output = .absent) := by
  intro w pid? o
  refine ⟨?_, ?_, ?_, ?_, ?_, ?_, ?_⟩
  · intro h1 h2 h3
    have hp := end_pipe_step_all_ok w o h2 h3
    refine ⟨?_, hp.1, hp.2⟩
    simp only [end_interaction, end_sess_step]
    cases hs : w.session <;> simp [hs, h1]
  · simp only [end_interaction, List.mem_append]
    have h1 := (end_proc_acts_no_unlink (resolve_pid w pid?) o).1
    have h2 := (end_sess_step_mem w o).1
    have h3 := (end_pipe_step_mem w o).1
    tauto
  · simp only [end_interaction, List.mem_append]
    have h1 := (end_proc_acts_no_unlink (resolve_pid w pid?) o).2.1
    have h2 := (end_sess_step_mem w o).2.1
    have h3 := (end_pipe_step_mem w o).2.1
    tauto
  · simp only [end_interaction, List.mem_append]
    have h1 := (end_proc_acts_no_unlink (resolve_pid w pid?) o).2.2
    have h2 := (end_sess_step_mem w o).2.2
    have h3 := (end_pipe_step_mem w o).2.2
    tauto
  · intro hs
    simp [end_interaction, end_sess_step, hs]
  · intro hi
    cases ho : w.output <;> by_cases h2 : o.unlinkOutputOk = true <;>
      simp [end_interaction, end_pipe_step, hi, ho, h2, PathState.present]
  · intro ho
    cases hi : w.input <;> by_cases h1 : o.unlinkInputOk = true <;>
      simp [end_interaction, end_pipe_step, hi, ho, h1, PathState.present]

/-- Witness for C3: ending the full running session with all unlinks
succeeding leaves the record and both channels absent. -/
theorem C3_end_interaction_cleanup_witness :
    (end_interaction wFull none oBase).1.session = none
    ∧ (end_interaction wFull none oBase).1.input = .absent
    ∧ (end_interaction wFull none oBase).1.output = .absent :=
  (C3_end_interaction_cleanup wFull none oBase).1 rfl rfl rfl

/-- C4 is false as stated: with both channels present, pid `0` supplied,
and psutil reporting every process alive, the claim's truth table says
healthy, but the source reports unhealthy — the truthiness test
`if pid:` skips the liveness check for pid `0` while the verdict tests
only `pid is None`. -/
theorem C4_counterexample : ¬ claimC4 := by
  intro h
  obtain ⟨info, hok, hov⟩ :=
    (h wPipes (some 0) oAllAlive).mpr ⟨rfl, rfl, Or.inr ⟨0, rfl, rfl⟩⟩
  have heq : Except.ok info = check_status wPipes (some 0) oAllAlive := hok.symm
  rw [show check_status wPipes (some 0) oAllAlive
      = Except.ok ({ input_channel := true,
                     output_channel := true,
                     process := false,
                     overall_status := "unhealthy",
                     command := none,
                     pid := none,
                     process_cmdline := none } : StatusInfo) from rfl] at heq
  have hinfo := Except.ok.inj heq
  rw [hinfo] at hov
  exact absurd hov (by decide)

/-- C4 amended: `check_status` produces a verdict only when the resolved
pid is not negative, and then `overall_status` is `"healthy"` iff both
channels are present and (the resolved pid is `None`, or it is a
positive pid whose process psutil reports running and not a zombie); a
resolved pid of `0` always yields `"unhealthy"` (the truthiness test
skips the liveness check while the verdict tests only `pid is None`);
and a negative resolved pid produces no verdict at all: `psutil.Process`
raises `ValueError`, the `except` tuple does not catch it, and the
exception escapes — reachable from the CLI, where `status -1` aborts the
interpreter. -/
theorem C4_check_status_verdict :
    ∀ (w : World) (pid? : Option Int) (o : Oracles) (now : Int),
      ((∃ info, check_status w pid? o = Except.ok info
          ∧ info.overall_status = "healthy") ↔
        (w.input.present = true ∧ w.output.present = true ∧
          (resolve_pid w pid? = none ∨
            ∃ p, resolve_pid w pid? = some p ∧ 0 < p ∧ o.alive p = true)))
      ∧ (∀ p, resolve_pid w pid? = some p → p < 0 →
          check_status w pid? o = Except.error (.valueError p))
      ∧ ((∃ e, check_status w pid? o = Except.error e) ↔
          (∃ p, resolve_pid w pid? = some p ∧ p < 0))
      ∧ (∀ (pyInt : String → Option Int) (s : String) (rest : List String) (p : Int),
          pyInt s = some p → p < 0 →
          (main pyInt o now ("status" :: s :: rest) w).term = .crashed) := by
  intro w pid? o now
  have hrun := check_status_run_eq w pid? o
  refine ⟨?_, ?_, ?_, ?_⟩
  · rcases hres : resolve_pid w pid? with _ | p
    · simp only [check_status, hrun, hres]
      simp [healthy_iff]
    · rcases lt_trichotomy p 0 with hp | hp | hp
      · have hnpos : ¬ 0 < p := by omega
        simp only [check_status, hrun, hres]
        simp [hp, hnpos]
      · subst hp
        simp only [check_status, hrun, hres]
        simp
      · have hneg : ¬ p < 0 := by omega
        cases ha : o.alive p <;>
          · simp only [check_status, hrun, hres]
            simp [hneg, hp, ha, healthy_iff]
  · intro p hres hneg
    simp only [check_status, hrun, hres]
    simp [hneg]
  · rcases hres : resolve_pid w pid? with _ | p
    · simp only [check_status, hrun, hres]
      simp
    · rcases lt_trichotomy p 0 with hp | hp | hp
      · simp only [check_status, hrun, hres]
        simp [hp]
      · subst hp
        simp only [check_status, hrun, hres]
        simp
      · have hneg : ¬ p < 0 := by omega
        simp only [check_status, hrun, hres]
        simp [hneg]
  · intro pyInt s rest p hp hneg
    have hrun' := check_status_run_eq w (some p) o
    simp only [resolve_pid] at hrun'
    simp [main, hp, main_status, hrun', hneg]

/-- Witness for C4: the full running session with a live pid 42 is
reported healthy; a recorded pid of -7 makes `check_status` escape with
the uncaught `ValueError`; and `status -1` from the CLI crashes the
interpreter. -/
theorem C4_check_status_verdict_witness :
    (∃ info, check_status wFull none oAllAlive = Except.ok info
        ∧ info.overall_status = "healthy")
    ∧ check_status wNegPid none oBase = Except.error (.valueError (-7))
    ∧ (main pyIntNegOne oBase 0 ["status", "-1"] wPipes).term = .crashed :=
  ⟨(C4_check_status_verdict wFull none oAllAlive 0).1.mpr
      ⟨rfl, rfl, Or.inr ⟨42, rfl, by decide, rfl⟩⟩,
   (C4_check_status_verdict wNegPid none oBase 0).2.1 (-7) rfl (by decide),
   (C4_check_status_verdict wPipes none oBase 0).2.2.2 pyIntNegOne "-1" [] (-1)
     rfl (by decide)⟩

/-- C5 is false as stated: with the input channel absent and no OS
error, `send_input` does not fail — Python `open("input_pipe", "w")`
creates a regular file at that path and the write succeeds. -/
theorem C5_counterexample : ¬ claimC5 := by
  intro h
  exact absurd rfl (h wEmpty "hi" oBase rfl rfl)

/-- C5 amended: when the input channel exists as a FIFO, `send_input`
appends the text followed by a newline to it and reports success; when
the path is absent it creates a regular file holding the line and still
reports success (no `ChannelUnavailable` failure exists in the source);
when the path is an existing regular file, mode `"w"` truncates it to
the new line. -/
theorem C5_send_input_behaviour :
    ∀ (w : World) (content : String) (o : Oracles), o.sendOsError = false →
      (∀ pending, w.input = .fifo pending →
        send_input w content o
          = ({ w with input := .fifo (pending ++ [content ++ "\n"]) }, .sent))
      ∧ (w.input = .absent →
        send_input w content o = ({ w with input := .regular [content ++ "\n"] }, .sent))
      ∧ (∀ cs, w.input = .regular cs →
        send_input w content o = ({ w with input := .regular [content ++ "\n"] }, .sent)) := by
  intro w content o hos
  refine ⟨?_, ?_, ?_⟩
  · intro pending hin
    simp [send_input, hos, hin]
  · intro hin
    simp [send_input, hos, hin]
  · intro cs hin
    simp [send_input, hos, hin]

/-- Witness for C5: a send to the provisioned FIFO appends the line; a
send with the pipe absent creates a regular file and still succeeds. -/
theorem C5_send_input_behaviour_witness :
    send_input wPipes "print(1+1)" oBase
      = ({ wPipes with input := .fifo ["print(1+1)\n"] }, .sent)
    ∧ send_input wEmpty "hi" oBase
      = ({ wEmpty with input := .regular ["hi\n"] }, .sent) :=
  ⟨(C5_send_input_behaviour wPipes "print(1+1)" oBase rfl).1 [] rfl,
   (C5_send_input_behaviour wEmpty "hi" oBase rfl).2.1 rfl⟩

/-- C6 is false as stated: take the spawnability predicate under which
no command names a spawnable executable.  Because `Popen` is called with
`shell=True`, it spawns `/bin/zsh` — not the command's executable — so
the launch still succeeds and a session record is still written. -/
theorem C6_counterexample : ¬ claimC6 noExecutable := by
  intro h
  exact (h wPipes "ghost-binary" oBase 7 rfl).1 42 rfl

/-- C6 amended: `start_interactive_command` fails only when the shell
itself cannot be spawned, by an uncaught `Popen` exception, and then no
session record is written (the write comes after `Popen`); whenever the
shell spawns — regardless of whether the executable named in the command
exists — a session record with the shell's pid, the command and the
start time is written, overwriting any prior record. -/
theorem C6_start_record_on_spawn :
    ∀ (w : World) (cmd : String) (o : Oracles) (now : Int),
      (o.spawnShell = none →
        start_interactive_command w (some cmd) o now = (w, .popenRaised))
      ∧ (∀ p, o.spawnShell = some p →
        start_interactive_command w (some cmd) o now
          = ({ w with session := some (.record (some p) (some cmd) now) }, .started p)) := by
  intro w cmd o now
  constructor
  · intro h
    simp [start_interactive_command, h]
  · intro p h
    simp [start_interactive_command, h]

/-- Witness for C6: a successful spawn writes the record; a failed spawn
raises without writing it. -/
theorem C6_start_record_on_spawn_witness :
    start_interactive_command wPipes (some "cat") oBase 7
      = ({ wPipes with session := some (.record (some 42) (some "cat") 7) }, .started 42)
    ∧ start_interactive_command wPipes (some "cat") oNoShell 7
      = (wPipes, .popenRaised) :=
  ⟨(C6_start_record_on_spawn wPipes "cat" oBase 7).2 42 rfl,
   (C6_start_record_on_spawn wPipes "cat" oNoShell 7).1 rfl⟩

/-- C7 is false as stated: the source checks only `command is None`, so
the empty command string passes the check, the shell is launched, and a
session record is written. -/
theorem C7_counterexample : ¬ claimC7 := by
  intro h
  have h2 := h wPipes (some "") oBase 7 (Or.inr rfl)
  revert h2
  decide

/-- C7 amended: a missing command (`None`) is rejected — an error
message, `sys.exit(1)`, and no side effects, as the `main` dispatch for
`start` with no argument confirms — but an empty command string is not
rejected: the shell is spawned with it and a session record is
written. -/
theorem C7_start_missing_vs_empty :
    ∀ (w : World) (o : Oracles) (now : Int),
      (start_interactive_command w none o now = (w, .exitNoCommand))
      ∧ (∀ pyInt : String → Option Int,
          (main pyInt o now ["start"] w).term = .normal 1
          ∧ (main pyInt o now ["start"] w).world = w)
      ∧ (∀ p, o.spawnShell = some p →
          start_interactive_command w (some "") o now
            = ({ w with session := some (.record (some p) (some "") now) }, .started p)) := by
  intro w o now
  refine ⟨rfl, ?_, ?_⟩
  · intro pyInt
    exact ⟨rfl, rfl⟩
  · intro p h
    simp [start_interactive_command, h]

/-- Witness for C7: the empty command starts the shell as pid 42 and
writes the record; `start` with no argument exits with code 1 leaving
the world unchanged. -/
theorem C7_start_missing_vs_empty_witness :
    start_interactive_command wPipes (some "") oBase 7
      = ({ wPipes with session := some (.record (some 42) (some "") 7) }, .started 42)
    ∧ (main pyIntNone oBase 7 ["start"] wPipes).term = .normal 1 :=
  ⟨(C7_start_missing_vs_empty wPipes oBase 7).2.2 42 rfl,
   ((C7_start_missing_vs_empty wPipes oBase 7).2.1 pyIntNone).1⟩

/-- C10: for `status` and `end`, a pid argument the Python `int` builtin
rejects prints a warning, proceeds exactly as if no pid had been
supplied (falling back to the session record), and the malformed
argument is never treated as a usage error: the only observable
difference from the no-pid invocation is the warning.  `end` always
exits with code 0 (its excepts are bare); `status` exits with code 0
whenever the fallback itself completes — in particular whenever the
recorded pid is absent or nonnegative — and in the hand-edited-record
corner where the fallback crashes, it crashes exactly as the no-pid
invocation does. -/
theorem C10_invalid_pid_fallback :
    ∀ (pyInt : String → Option Int) (o : Oracles) (now : Int) (w : World)
      (s : String) (rest : List String),
      pyInt s = none →
      (main pyInt o now ("status" :: s :: rest) w
        = { main pyInt o now ["status"] w with warnedBadPid := true })
      ∧ (main pyInt o now ("end" :: s :: rest) w
        = { main pyInt o now ["end"] w with warnedBadPid := true })
      ∧ (main pyInt o now ("end" :: s :: rest) w
        = { term := .normal 0, world := (end_interaction w none o).1,
            warnedBadPid := true, statusReport := none,
            acts := (end_interaction w none o).2 })
      ∧ (∀ info, (check_status_run none o w).1 = .ok info →
          main pyInt o now ("status" :: s :: rest) w
            = { term := .normal 0, world := (check_status_run none o w).2,
                warnedBadPid := true, statusReport := some info, acts := [] })
      ∧ (∀ e, (check_status_run none o w).1 = .error e →
          main pyInt o now ("status" :: s :: rest) w
            = { term := .crashed, world := (check_status_run none o w).2,
                warnedBadPid := true, statusReport := none, acts := [] })
      ∧ ((∀ p, resolve_pid w none = some p → 0 ≤ p) →
          (main pyInt o now ("status" :: s :: rest) w).term = .normal 0) := by
  intro pyInt o now w s rest hs
  refine ⟨?_, ?_, ?_, ?_, ?_, ?_⟩
  · cases h : (check_status_run none o w).1 <;>
      simp [main, hs, main_status, h]
  · simp [main, hs]
  · simp [main, hs]
  · intro info h
    simp [main, hs, main_status, h]
  · intro e h
    simp [main, hs, main_status, h]
  · intro hnn
    have hrun := check_status_run_eq w none o
    rcases hres : resolve_pid w none with _ | p
    · simp [main, hs, main_status, hrun, hres]
    · have hp : 0 ≤ p := hnn p hres
      have hneg : ¬ p < 0 := by omega
      simp [main, hs, main_status, hrun, hres, hneg]

/-- Witness for C10: `status abc` and `end abc` with an unparsable pid,
against the full session world whose recorded pid 42 is nonnegative. -/
theorem C10_invalid_pid_fallback_witness :
    main pyIntNone oBase 0 ["status", "abc"] wFull
      = { main pyIntNone oBase 0 ["status"] wFull with warnedBadPid := true }
    ∧ main pyIntNone oBase 0 ["end", "abc"] wFull
      = { main pyIntNone oBase 0 ["end"] wFull with warnedBadPid := true }
    ∧ (main pyIntNone oBase 0 ["status", "abc"] wFull).term = .normal 0 :=
  ⟨(C10_invalid_pid_fallback pyIntNone oBase 0 wFull "abc" [] rfl).1,
   (C10_invalid_pid_fallback pyIntNone oBase 0 wFull "abc" [] rfl).2.1,
   (C10_invalid_pid_fallback pyIntNone oBase 0 wFull "abc" [] rfl).2.2.2.2.2
     (fun p hp => by
        simp [resolve_pid, wFull] at hp
        omega)⟩

end AgentShell
